import Mathlib

set_option linter.unusedVariables false

/-!
Verification of the MACRA v2.1 unified workout system against its
natural-language specification.

The development shallowly embeds the two core modules:

* `src/macra-crypto.js` — the envelope-encryption layer (`deriveKey`,
  `encrypt`, `decrypt`).  The Web-platform primitives it calls
  (PBKDF2, AES-256-GCM, `JSON.stringify`/`JSON.parse`, base64
  transcoding) are not repository code; they are modelled ideally:
  PBKDF2 as a deterministic pairing of the normalized secret with the
  salt, AES-GCM as an ideal authenticated cipher that succeeds exactly
  when key and nonce match, and the serialize/base64 legs as the
  bijections onto their images that the platform guarantees on
  JSON-representable values.  Everything the repository itself
  contributes — the passthrough guards, the `_encrypted` marker, the
  secret normalization, envelope packaging and the error strings — is
  translated directly from the source.

* `src/unnamed/part_001` — the unified session state machine
  (`UnifiedState`, `unifiedApiCall`, `addExercise`, `updateSet`,
  `handleInlineEdit`, `finalizeWorkout`, `cancelWorkout`, the timer
  helpers, and the staleness check of `initUnifiedWorkout`).  Remote
  responses, `Date.now()`, DOM input values and `setInterval` ids are
  passed in as explicit parameters; every function returns its result
  value, the successor state, and the list of remote calls it issued.
  JS numbers are modelled as exact integers (the claims do not depend
  on floating-point rounding), and JS truthiness of the relevant
  values (`null`/`undefined`/`""`/`0`) is modelled explicitly.
-/

/-! ## Envelope crypto (src/macra-crypto.js) -/

/-- Model of JSON-representable JS values (the payloads fed to
`JSON.stringify` in `encrypt` and produced by `JSON.parse` in
`decrypt`).  Numbers are modelled as exact integers. -/
inductive JsVal where
  | null : JsVal
  | bool (b : Bool) : JsVal
  | num (n : Int) : JsVal
  | str (s : String) : JsVal
  | arr (items : List JsVal) : JsVal
  | obj (fields : List (String × JsVal)) : JsVal

/-- Characters removed by the `replace(/\s/g, '')` in `deriveKey`.
The JS `\s` class restricted to the ASCII whitespace actually
occurring in athlete codes. -/
def isJsSpace (c : Char) : Bool :=
  c = ' ' ∨ c = '\t' ∨ c = '\n' ∨ c = '\r'

/-- Model of `athleteCode.toUpperCase().replace(/\s/g, '')` from `deriveKey`
(src/macra-crypto.js line 57). -/
def normalizeCode (s : String) : String :=
  ⟨(s.data.map Char.toUpper).filter (fun c => ¬ isJsSpace c)⟩

/-- Ideal model of the PBKDF2-derived AES key of `deriveKey`
(src/macra-crypto.js lines 56-70): the derivation is a deterministic
function of the normalized secret and the salt, and (ideally)
injective in that pair. -/
structure DerivedKey where
  code : String
  salt : List Nat
deriving DecidableEq, Repr

/-- Model of `deriveKey(athleteCode, salt)` (src/macra-crypto.js lines 56-70). -/
def deriveKey (athleteCode : String) (salt : List Nat) : DerivedKey :=
  ⟨normalizeCode athleteCode, salt⟩

/-- JS truthiness of the `athleteCode` argument: `null`/`undefined`
(`none`) and the empty string are falsy. -/
def jsTruthy (code : Option String) : Bool :=
  match code with
  | none => false
  | some s => ¬ s.isEmpty

/-- A JS value as seen by `encrypt`/`decrypt`: either a plain value
carrying no truthy `_encrypted` marker, or an envelope produced by
`encrypt`.  The `enc` constructor merges the envelope object
(version, algorithm, base64(salt), base64(iv), base64(ciphertext),
timestamp) with the ideal AES-GCM ciphertext it transports: the
ciphertext of the serialized plaintext is modelled as the triple of
the encryption key, the nonce used, and the plaintext value itself
(authenticated decryption recovers the value exactly when key and
nonce match); the base64 transcoding of salt/iv/ciphertext is a
bijection onto its image and is elided as a pure change of
representation. -/
inductive CPayload where
  | plain (d : JsVal) : CPayload
  | enc (version : String) (algorithm : String) (salt : List Nat) (iv : List Nat)
        (ctKey : DerivedKey) (ctIV : List Nat) (ctData : CPayload)
        (timestamp : String) : CPayload

/-- JS falsiness of the `payload` argument of `decrypt`
(`if (!payload || ...)`). -/
def CPayload.isFalsy : CPayload → Bool
  | .plain .null => true
  | .plain (.bool false) => true
  | .plain (.num 0) => true
  | .plain (.str "") => true
  | _ => false

/-- Model of `encrypt(data, athleteCode)` (src/macra-crypto.js lines 76-107).
The randomly generated `salt` and `iv` and the creation timestamp are
passed in explicitly (the source draws them from
`crypto.getRandomValues` and `new Date()`). -/
def encrypt (data : CPayload) (athleteCode : Option String)
    (salt iv : List Nat) (timestamp : String) : CPayload :=
  if jsTruthy athleteCode then
    .enc "2.1" "AES-256-GCM" salt iv
      (deriveKey (athleteCode.getD "") salt) iv data timestamp
  else
    -- `if (!athleteCode) ... return data;`
    data

/-- Model of `decrypt(payload, athleteCode)` (src/macra-crypto.js lines
110-131).  Failures are the two thrown errors of the source: the
missing-code guard and the catch-all raised on authentication
failure. -/
def decrypt (payload : CPayload) (athleteCode : Option String) :
    Except String CPayload :=
  if payload.isFalsy then .ok payload
  else
    match payload with
    | .plain d => .ok (.plain d)   -- no `_encrypted` marker: passthrough
    | .enc _ _ salt iv ctKey ctIV ctData _ =>
      if jsTruthy athleteCode then
        -- re-derive the key from the embedded salt and run AES-GCM
        let key := deriveKey (athleteCode.getD "") salt
        if key = ctKey ∧ iv = ctIV then .ok ctData
        else .error "Failed to decrypt data - wrong athlete code?"
      else .error "Athlete code required for decryption"

/-! ## Unified state and data model (src/unnamed/part_001 lines 86-107) -/

/-- One set of an exercise (`{set_num, weight, reps, rpe}`). -/
structure SetRec where
  set_num : Nat
  weight : Int
  reps : Int
  rpe : Option Int
deriving DecidableEq, Repr

/-- One exercise of a session (`{id, name, category, sets}`). -/
structure WorkoutExercise where
  id : String
  name : String
  category : Option String
  sets : List SetRec
deriving DecidableEq, Repr

/-- An active workout session as held in `UnifiedState.activeWorkout`.
`started_at` is the epoch-millisecond value of the ISO timestamp
(`none` when the field is absent or falsy). -/
structure Workout where
  id : String
  workout_name : Option String
  started_at : Option Nat
  exercises : List WorkoutExercise
deriving DecidableEq, Repr

/-- Model of `UnifiedState.lastExercise` (`{name, weight, reps, sets, rpe}`). -/
structure LastExercise where
  name : String
  weight : Int
  reps : Int
  sets : Int
  rpe : Option Int
deriving DecidableEq, Repr

/-- An AI prediction (`data.prediction` of `/api/v2/learning/predict-next`). -/
structure Prediction where
  exercise : String
  reason : Option String
deriving DecidableEq, Repr

/-- An entry of `UnifiedState.syncQueue`
(`{ endpoint, options, timestamp }`, src/unnamed/part_001 line 137);
of the options only the `method` field is observable by the queue
logic, so it stands for the options object. -/
structure QueueEntry where
  endpoint : String
  method : Option String
  timestamp : Nat
deriving DecidableEq, Repr

/-- The global `UnifiedState` object (src/unnamed/part_001 lines
86-107). -/
structure UnifiedState where
  activeWorkout : Option Workout
  todayNutrition : Option Unit
  prediction : Option Prediction
  timerInterval : Option Nat
  lastExercise : Option LastExercise
  isOnline : Bool
  syncQueue : List QueueEntry
deriving DecidableEq, Repr

/-- A remote request issued through `unifiedApiCall`, recorded as
(endpoint, method); `none` is the default (absent) method. -/
structure RemoteCall where
  endpoint : String
  method : Option String
deriving DecidableEq, Repr

/-- A set as recorded in `localSummary.exercises`
(`{ weight, reps, rpe }`, src/unnamed/part_001 line 440). -/
structure SetDetail where
  weight : Int
  reps : Int
  rpe : Option Int
deriving DecidableEq, Repr

/-- An exercise as recorded in `localSummary.exercises`
(`{ name, category, sets }`, src/unnamed/part_001 lines 437-441). -/
structure ExDetail where
  name : String
  category : String
  sets : List SetDetail
deriving DecidableEq, Repr

/-- The `localSummary` object computed by `finalizeWorkout` before the
remote call (src/unnamed/part_001 lines 431-444). -/
structure LocalSummary where
  total_exercises : Int
  total_sets : Int
  total_volume : Int
  exercises : List ExDetail
  duration : String
  started_at : Option Nat
deriving DecidableEq, Repr

/-- The `summary` field of a Local Activity Record
(src/unnamed/part_001 lines 493-498). -/
structure EntrySummary where
  exercises : Int
  sets : Int
  volume : Int
  duration : String
deriving DecidableEq, Repr

/-- A Local Activity Record (`activityEntry`, src/unnamed/part_001
lines 487-502).  The constant fields `type: 'workout'` and
`source: 'v2'` are kept for fidelity. -/
structure ActivityEntry where
  entryType : String
  name : String
  time : String
  timestamp : Nat
  notes : String
  summary : EntrySummary
  exerciseDetails : List ExDetail
  sessionId : String
deriving DecidableEq, Repr

/-- Model of `appData.activities`: a map from date key to the per-day list of
Local Activity Records, defaulting to the empty list (the source
lazily creates missing keys). -/
def Activities := String → List ActivityEntry

/-! ## Timer helpers (src/unnamed/part_001 lines 592-638) -/

/-- Model of `stopWorkoutTimer()` (lines 600-605): clears the interval when one
is set (interval ids are positive, hence truthy). -/
def stopWorkoutTimer (st : UnifiedState) : UnifiedState :=
  if st.timerInterval.isSome then { st with timerInterval := none } else st

/-- Model of `startWorkoutTimer()` (lines 592-598): stops any existing interval
and registers a fresh one; the id handed out by `setInterval` is the
`fresh` parameter. -/
def startWorkoutTimer (st : UnifiedState) (fresh : Nat) : UnifiedState :=
  let st1 := stopWorkoutTimer st
  { st1 with timerInterval := some fresh }

/-- Model of `getElapsedTime()` (lines 625-638).  `Date.now()` is the `now`
parameter; modelled for the run-forward case `now ≥ started_at` (the
claims never inspect the formatted string beyond carrying it). -/
def getElapsedTime (st : UnifiedState) (now : Nat) : String :=
  match st.activeWorkout.bind (fun w => w.started_at) with
  | none => "0:00"
  | some t0 =>
    let elapsed := now - t0
    let hours := elapsed / 3600000
    let minutes := (elapsed % 3600000) / 60000
    if hours > 0 then s!"{hours}h {minutes}m" else s!"{minutes} min"

/-- State effect of `renderWorkoutPanel()` (lines 707-856): with no
active workout it only rewrites the panel HTML; with an active workout
it additionally starts the periodic tick when none is running
(lines 853-855). -/
def renderWorkoutPanel (st : UnifiedState) (fresh : Nat) : UnifiedState :=
  match st.activeWorkout with
  | none => st
  | some _ => if st.timerInterval = none then startWorkoutTimer st fresh else st

/-! ## API layer (src/unnamed/part_001 lines 113-169) -/

/-- Outcome of the underlying `fetch`: a response with an `ok` flag,
a thrown network error, or the abort raised by
`unifiedApiCallWithTimeout` expiring. -/
inductive FetchResult where
  | resp (ok : Bool) : FetchResult
  | err : FetchResult
  | abort : FetchResult
deriving DecidableEq, Repr

/-- Result of `unifiedApiCall` as observed by its callers: the early
`{ ok: false }` return when no auth token is present, a delivered
response, or a thrown error. -/
inductive ApiResult where
  | noToken : ApiResult
  | response (ok : Bool) : ApiResult
  | thrown : ApiResult
deriving DecidableEq, Repr

/-- The offline-queue effect of `unifiedApiCall`'s catch block
(src/unnamed/part_001 lines 133-141): on a thrown fetch error while
`navigator.onLine` is false and `options.method !== 'GET'`, the
request is pushed onto `UnifiedState.syncQueue`.  Note the condition
compares against the literal `'GET'`, so a read issued with the
default (absent) method also satisfies it. -/
def offlineQueueOn (st : UnifiedState) (navOnline : Bool)
    (endpoint : String) (method : Option String) (now : Nat) : UnifiedState :=
  if ¬ navOnline ∧ method ≠ some "GET" then
    { st with syncQueue := st.syncQueue ++ [⟨endpoint, method, now⟩] }
  else st

/-- Model of `unifiedApiCall(endpoint, options)` (src/unnamed/part_001 lines
113-142).  `hasToken` reflects `auth.token`, `navOnline` is
`navigator.onLine` at the moment of failure, `now` is `Date.now()`,
and `outcome` the behaviour of `fetch`.  An `abort` outcome (timeout
injected by `unifiedApiCallWithTimeout`) takes the same catch path as
a network error. -/
def unifiedApiCall (st : UnifiedState) (endpoint : String)
    (method : Option String) (hasToken : Bool) (navOnline : Bool)
    (now : Nat) (outcome : FetchResult) : ApiResult × UnifiedState :=
  if ¬ hasToken then (.noToken, st)
  else
    match outcome with
    | .resp ok => (.response ok, st)
    | .err => (.thrown, offlineQueueOn st navOnline endpoint method now)
    | .abort => (.thrown, offlineQueueOn st navOnline endpoint method now)

/-- The `'online'` event listener (src/unnamed/part_001 lines
1105-1109): sets the connectivity flag and shows a toast; processing
the sync queue is an unimplemented TODO, so the queue is untouched
and no request is re-issued. -/
def handleOnlineEvent (st : UnifiedState) : UnifiedState :=
  { st with isOnline := true }

/-- The `'offline'` event listener (src/unnamed/part_001 lines
1111-1114). -/
def handleOfflineEvent (st : UnifiedState) : UnifiedState :=
  { st with isOnline := false }

/-! ## JS `||` helpers -/

/-- JS `a || b` for strings that may be absent: `none` and the empty
string are falsy. -/
def jsStrOr (a : Option String) (b : String) : String :=
  match a with
  | some s => if s.isEmpty then b else s
  | none => b

/-- JS `a || b` for a number that may be absent: `undefined` and `0`
are falsy. -/
def jsIntOr (a : Option Int) (b : Int) : Int :=
  match a with
  | some n => if n = 0 then b else n
  | none => b

/-! ## finalizeWorkout (src/unnamed/part_001 lines 418-551) -/

/-- The summary carried by a finalize response
(`summary{total_exercises, total_sets, total_volume}`); fields may be
absent. -/
structure ApiSummary where
  total_exercises : Option Int
  total_sets : Option Int
  total_volume : Option Int
deriving DecidableEq, Repr

/-- The `data.session` field of a successful finalize response; only its
`summary` field is read by `finalizeWorkout`. -/
structure ApiSession where
  summary : Option ApiSummary
deriving DecidableEq, Repr

/-- Outcome of the bounded remote finalize call: a successful response
(whose body may or may not carry a session), a non-ok response, a
thrown network error, or the 15s timeout. -/
inductive FinalizeOutcome where
  | ok (session : Option ApiSession) : FinalizeOutcome
  | nonOk : FinalizeOutcome
  | fetchError : FinalizeOutcome
  | timeout : FinalizeOutcome
deriving DecidableEq, Repr

/-- The object returned by `finalizeWorkout` on a session
(src/unnamed/part_001 lines 544-550). -/
structure FinalizeResult where
  success : Bool
  apiSuccess : Bool
  session : Option ApiSession
  summary : LocalSummary
deriving DecidableEq, Repr

/-- Environment values read by `finalizeWorkout`: `Date.now()`,
`getTodayKey()`, `toLocaleTimeString()`, and the next `setInterval`
id. -/
structure Env where
  now : Nat
  dateKey : String
  timeStr : String
  nextTimerId : Nat

/-- The pre-call local summary of `finalizeWorkout`
(src/unnamed/part_001 lines 431-444), computed from the snapshot of
the active workout: exercise count, set count,
`Σ (weight * reps)` over all sets, per-exercise details with
`category || 'other'`, elapsed duration and start timestamp. -/
def computeLocalSummary (w : Workout) (duration : String) : LocalSummary :=
  { total_exercises := (w.exercises.length : Int)
    total_sets := ((w.exercises.map (fun ex => ex.sets.length)).sum : Int)
    total_volume := (w.exercises.map
      (fun ex => (ex.sets.map (fun s => s.weight * s.reps)).sum)).sum
    exercises := w.exercises.map (fun ex =>
      { name := ex.name
        category := jsStrOr ex.category "other"
        sets := ex.sets.map (fun s => ⟨s.weight, s.reps, s.rpe⟩) })
    duration := duration
    started_at := w.started_at }

/-- Combined output of `finalizeWorkout`: return value, successor
state, activity map, and the remote calls issued. -/
structure FinalizeOut where
  ret : Option FinalizeResult
  state : UnifiedState
  activities : Activities
  calls : List RemoteCall

/-- Model of `finalizeWorkout(workoutName, notes)` (src/unnamed/part_001 lines
418-551).  With no active session it returns `null` immediately.
Otherwise it snapshots the session, computes `localSummary`, issues
the bounded finalize call, writes exactly one activity entry for
`getTodayKey()` — each summary field preferring the (truthy part of
the) remote summary when a successful response carried one — then
unconditionally stops the timer, clears
activeWorkout/prediction/lastExercise, and re-renders. -/
def finalizeWorkout (st : UnifiedState) (acts : Activities) (env : Env)
    (navOnline : Bool) (workoutName notes : Option String)
    (outcome : FinalizeOutcome) : FinalizeOut :=
  match st.activeWorkout with
  | none => ⟨none, st, acts, []⟩
  | some w =>
    -- snapshot before the API call (deep copy is identity in the pure model)
    let sessionId := w.id
    let finalName := jsStrOr workoutName (jsStrOr w.workout_name "Workout")
    let localSummary := computeLocalSummary w (getElapsedTime st env.now)
    let apiResult : Option ApiSession :=
      match outcome with | .ok s => s | _ => none
    let apiSuccess : Bool :=
      match outcome with | .ok _ => true | _ => false
    -- the failed POST may be queued by unifiedApiCall's catch block
    let st1 :=
      match outcome with
      | .fetchError => offlineQueueOn st navOnline "/api/v2/workout/finalize" (some "POST") env.now
      | .timeout => offlineQueueOn st navOnline "/api/v2/workout/finalize" (some "POST") env.now
      | _ => st
    -- `const summary = apiResult?.summary || localSummary;` then
    -- `summary.total_* || localSummary.total_*` per field
    let apiSummary : Option ApiSummary := apiResult.bind (fun s => s.summary)
    let entry : ActivityEntry :=
      { entryType := "workout"
        name := finalName
        time := env.timeStr
        timestamp := env.now
        notes := (jsStrOr notes "")
        summary :=
          { exercises :=
              match apiSummary with
              | some a => jsIntOr a.total_exercises localSummary.total_exercises
              | none => localSummary.total_exercises
            sets :=
              match apiSummary with
              | some a => jsIntOr a.total_sets localSummary.total_sets
              | none => localSummary.total_sets
            volume :=
              match apiSummary with
              | some a => jsIntOr a.total_volume localSummary.total_volume
              | none => localSummary.total_volume
            duration := localSummary.duration }
        exerciseDetails := localSummary.exercises
        sessionId := sessionId }
    let acts' : Activities := fun k =>
      if k = env.dateKey then acts k ++ [entry] else acts k
    -- ALWAYS clean up state (prevents ghost sessions)
    let st2 := stopWorkoutTimer st1
    let st3 := { st2 with activeWorkout := none, prediction := none,
                          lastExercise := none }
    let st4 := renderWorkoutPanel st3 env.nextTimerId
    ⟨some { success := true, apiSuccess := apiSuccess,
            session := apiResult, summary := localSummary },
     st4, acts', [⟨"/api/v2/workout/finalize", some "POST"⟩]⟩

/-! ## cancelWorkout (src/unnamed/part_001 lines 556-586) -/

/-- Outcome of the best-effort cancel notice: any response (its `ok`
flag is never inspected) or a thrown error. -/
inductive CancelOutcome where
  | resp : CancelOutcome
  | fetchError : CancelOutcome
deriving DecidableEq, Repr

/-- Model of `cancelWorkout()` (src/unnamed/part_001 lines 556-586).
`confirmed` is the user's answer to the `confirm(...)` dialog, asked
only when the session has logged exercises.  Past the guard the
remote notice is best-effort (errors ignored, though a thrown error
while offline still queues the POST), and the local cleanup is
unconditional. -/
def cancelWorkout (st : UnifiedState) (navOnline : Bool) (now : Nat)
    (confirmed : Bool) (outcome : CancelOutcome) :
    UnifiedState × List RemoteCall :=
  match st.activeWorkout with
  | none => (st, [])
  | some w =>
    if (w.exercises.length : Int) > 0 ∧ ¬ confirmed then (st, [])
    else
      let st1 :=
        match outcome with
        | .fetchError => offlineQueueOn st navOnline "/api/v2/workout/cancel" (some "POST") now
        | .resp => st
      let st2 := stopWorkoutTimer st1
      let st3 := { st2 with activeWorkout := none, prediction := none,
                            lastExercise := none }
      -- renderWorkoutPanel with no active workout leaves state unchanged
      (st3, [⟨"/api/v2/workout/cancel", some "POST"⟩])

/-! ## Session reads and mutations (src/unnamed/part_001 lines 178-349)

The `MacraCrypto.encrypt`/`MacraCrypto.decrypt` intercept points of
the session machine are passthrough unless an athlete code is
configured (src/unnamed/part_001 lines 40-60); the session-machine
models below take the decrypted session carried by each response as
the outcome parameter directly, which is the passthrough behaviour
and, by the crypto round-trip below, also the observable behaviour
with encryption configured. -/

/-- Outcome of the `/api/v2/workout/active` read. -/
inductive GetActiveOutcome where
  | ok (session : Option Workout) : GetActiveOutcome
  | nonOk : GetActiveOutcome
  | fetchError : GetActiveOutcome
deriving DecidableEq, Repr

/-- Model of `getActiveWorkout()` (src/unnamed/part_001 lines 178-191).  Note
the call passes no options, so its (absent) method is not the literal
`'GET'`. -/
def getActiveWorkout (st : UnifiedState) (navOnline : Bool) (now : Nat)
    (outcome : GetActiveOutcome) :
    Option Workout × UnifiedState × List RemoteCall :=
  let call : RemoteCall := ⟨"/api/v2/workout/active", none⟩
  match outcome with
  | .ok s => (s, { st with activeWorkout := s }, [call])
  | .nonOk => (none, st, [call])
  | .fetchError =>
    (none, offlineQueueOn st navOnline "/api/v2/workout/active" none now, [call])

/-- Outcome of the `/api/v2/workout/start` call: accepted (with the
session the response carried), rejected with an `err.session_id`
(adoption path, which re-reads the active session), rejected without
one (thrown and caught), or a network error. -/
inductive StartOutcome where
  | ok (session : Option Workout) : StartOutcome
  | adopt (g : GetActiveOutcome) : StartOutcome
  | rejected : StartOutcome
  | fetchError : StartOutcome
deriving DecidableEq, Repr

/-- Model of `startWorkout(workoutName)` (src/unnamed/part_001 lines 196-225). -/
def startWorkout (st : UnifiedState) (navOnline : Bool) (now : Nat)
    (fresh : Nat) (outcome : StartOutcome) :
    Option Workout × UnifiedState × List RemoteCall :=
  let call : RemoteCall := ⟨"/api/v2/workout/start", some "POST"⟩
  match outcome with
  | .ok s =>
    let st1 := { st with activeWorkout := s }
    let st2 := startWorkoutTimer st1 fresh
    let st3 := renderWorkoutPanel st2 fresh
    (s, st3, [call])
  | .adopt g =>
    let r := getActiveWorkout st navOnline now g
    (r.1, r.2.1, call :: r.2.2)
  | .rejected => (none, st, [call])
  | .fetchError =>
    (none, offlineQueueOn st navOnline "/api/v2/workout/start" (some "POST") now, [call])

/-- Outcome of the `/api/v2/learning/predict-next` side query. -/
inductive PredOutcome where
  | ok (p : Option Prediction) : PredOutcome
  | nonOk : PredOutcome
  | fetchError : PredOutcome
deriving DecidableEq, Repr

/-- Model of `getPrediction()` (src/unnamed/part_001 lines 644-667): a
non-authoritative side query; failures are swallowed. -/
def getPrediction (st : UnifiedState) (navOnline : Bool) (now : Nat)
    (fresh : Nat) (outcome : PredOutcome) :
    Option Prediction × UnifiedState × List RemoteCall :=
  match st.activeWorkout with
  | none => (none, { st with prediction := none }, [])
  | some w =>
    if w.exercises.isEmpty then (none, { st with prediction := none }, [])
    else
      let call : RemoteCall := ⟨"/api/v2/learning/predict-next", some "POST"⟩
      match outcome with
      | .ok p =>
        (p, renderWorkoutPanel { st with prediction := p } fresh, [call])
      | .nonOk => (none, st, [call])
      | .fetchError =>
        (none, offlineQueueOn st navOnline "/api/v2/learning/predict-next" (some "POST") now, [call])

/-- Outcome of a mutating workout call (`add exercise` / `update
set`): a successful response carrying the authoritative session, a
non-ok response, or a thrown fetch error. -/
inductive MutOutcome where
  | ok (session : Option Workout) : MutOutcome
  | nonOk : MutOutcome
  | fetchError : MutOutcome
deriving DecidableEq, Repr

/-- Combined output of a mutating call: return value, successor state,
and the remote calls issued. -/
structure MutOut where
  ret : Option Workout
  state : UnifiedState
  calls : List RemoteCall

/-- Model of `addExercise(exerciseName, weight, reps, sets, rpe)`
(src/unnamed/part_001 lines 231-283).  When no session is active the
function first runs `startWorkout` (its outcome is the `startOutcome`
parameter, unused otherwise) and gives up if that leaves no session.
It then unconditionally records the attempted exercise in
`lastExercise` before issuing the remote call; on success the
authoritative session replaces local state and `getPrediction` runs;
on failure it returns `null`. -/
def addExercise (st : UnifiedState) (navOnline : Bool) (now : Nat)
    (fresh : Nat) (exerciseName : String) (weight reps : Int)
    (sets : Int) (rpe : Option Int) (startOutcome : StartOutcome)
    (outcome : MutOutcome) (predOutcome : PredOutcome) : MutOut :=
  let auto :=
    match st.activeWorkout with
    | none =>
      let r := startWorkout st navOnline now fresh startOutcome
      (r.2.1, r.2.2)
    | some _ => (st, ([] : List RemoteCall))
  let st0 := auto.1
  match st0.activeWorkout with
  | none => ⟨none, st0, auto.2⟩
  | some _ =>
    let st1 := { st0 with
      lastExercise := some ⟨exerciseName, weight, reps, sets, rpe⟩ }
    let call : RemoteCall := ⟨"/api/v2/workout/exercise", some "POST"⟩
    match outcome with
    | .ok s =>
      let st2 := renderWorkoutPanel { st1 with activeWorkout := s } fresh
      let pr := getPrediction st2 navOnline now fresh predOutcome
      ⟨s, pr.2.1, auto.2 ++ [call] ++ pr.2.2⟩
    | .nonOk => ⟨none, st1, auto.2 ++ [call]⟩
    | .fetchError =>
      ⟨none, offlineQueueOn st1 navOnline "/api/v2/workout/exercise" (some "POST") now,
       auto.2 ++ [call]⟩

/-- Model of `updateSet(exerciseId, setNum, weight, reps, rpe)`
(src/unnamed/part_001 lines 319-349). -/
def updateSet (st : UnifiedState) (navOnline : Bool) (now : Nat)
    (fresh : Nat) (exerciseId : String) (setNum : Nat)
    (weight reps : Int) (rpe : Option Int) (outcome : MutOutcome) : MutOut :=
  match st.activeWorkout with
  | none => ⟨none, st, []⟩
  | some _ =>
    let call : RemoteCall := ⟨"/api/v2/workout/set", some "PUT"⟩
    match outcome with
    | .ok s =>
      ⟨s, renderWorkoutPanel { st with activeWorkout := s } fresh, [call]⟩
    | .nonOk => ⟨none, st, [call]⟩
    | .fetchError =>
      ⟨none, offlineQueueOn st navOnline "/api/v2/workout/set" (some "PUT") now, [call]⟩

/-! ## Staleness auto-expiry (src/unnamed/part_001 lines 1073-1087) -/

/-- The staleness threshold: `const FOUR_HOURS = 4 * 60 * 60 * 1000`. -/
def FOUR_HOURS : Int := 4 * 60 * 60 * 1000

/-- The auto-expiry fragment of `initUnifiedWorkout`
(src/unnamed/part_001 lines 1073-1087), run after the active session
is recovered from the remote peer: when the session carries a truthy
`started_at` and its age strictly exceeds four hours, a best-effort
cancel notice is sent (errors swallowed) and `activeWorkout` is
cleared before anything is rendered. -/
def initStaleCheck (st : UnifiedState) (navOnline : Bool) (now : Nat)
    (noticeOutcome : CancelOutcome) : UnifiedState × List RemoteCall :=
  match st.activeWorkout with
  | some w =>
    match w.started_at with
    | some t0 =>
      let age : Int := (now : Int) - (t0 : Int)
      if age > FOUR_HOURS then
        let st1 :=
          match noticeOutcome with
          | .fetchError => offlineQueueOn st navOnline "/api/v2/workout/cancel" (some "POST") now
          | .resp => st
        ({ st1 with activeWorkout := none }, [⟨"/api/v2/workout/cancel", some "POST"⟩])
      else (st, [])
    | none => (st, [])
  | none => (st, [])

/-! ## Debounced inline edits (src/unnamed/part_001 lines 355-381) -/

/-- A pending entry of the `_pendingEdits` timer map: the string key
`` `${exerciseId}-${setNum}` ``, the absolute time at which the 800 ms
timer fires, and the captured arguments. -/
structure TimerEntry where
  key : String
  fireAt : Nat
  exerciseId : String
  setNum : Nat
deriving DecidableEq, Repr

/-- The debounce key `` `${exerciseId}-${setNum}` ``. -/
def editKey (exerciseId : String) (setNum : Nat) : String :=
  exerciseId ++ "-" ++ toString setNum

/-- Model of `handleInlineEdit(exerciseId, setNum)` (src/unnamed/part_001 lines
356-381): clears any pending timer for the same key and schedules a
new one 800 ms out; timers for other keys are untouched. -/
def handleInlineEdit (pending : List TimerEntry) (exerciseId : String)
    (setNum : Nat) (now : Nat) : List TimerEntry :=
  let key := editKey exerciseId setNum
  (pending.filter (fun e => e.key != key)) ++
    [⟨key, now + 800, exerciseId, setNum⟩]

/-- The DOM inputs read by the debounce callback:
`parseFloat(weightInput.value) || 0` and
`parseInt(repsInput.value) || 0` for the element keyed by
`data-edit-weight`/`data-edit-reps`, `none` when the element is
missing. -/
structure Dom where
  weightVal : String → Option Int
  repsVal : String → Option Int

/-- The `updateSet` invocation issued by the debounce callback. -/
structure UpdateSetCall where
  exerciseId : String
  setNum : Nat
  weight : Int
  reps : Int
  rpe : Option Int
deriving DecidableEq, Repr

/-- The body of the debounce timer (src/unnamed/part_001 lines
362-379): read both inputs, give up if either element is missing,
locate the confirmed set in the active workout, and call `updateSet`
only when the resolved values differ from the confirmed ones. -/
def fireInlineEdit (dom : Dom) (workout : Option Workout)
    (exerciseId : String) (setNum : Nat) : Option UpdateSetCall :=
  let key := editKey exerciseId setNum
  match dom.weightVal key, dom.repsVal key with
  | some newWeight, some newReps =>
    let exercise := workout.bind (fun wk =>
      wk.exercises.find? (fun e => e.id == exerciseId))
    let confirmed := exercise.bind (fun e =>
      e.sets.find? (fun s => s.set_num == setNum))
    match confirmed with
    | some s =>
      if s.weight ≠ newWeight ∨ s.reps ≠ newReps then
        some ⟨exerciseId, setNum, newWeight, newReps, s.rpe⟩
      else none
    | none => none
  | _, _ => none

/-- An inline-edit event: the set being edited and the time of the
`onchange`. -/
structure EditEvent where
  exerciseId : String
  setNum : Nat
  time : Nat
deriving DecidableEq, Repr

/-- Fire every pending timer due by time `t` (each fired timer also
deletes its own `_pendingEdits` entry, as the callback does). -/
def fireDue (dom : Dom) (workout : Option Workout)
    (pending : List TimerEntry) (t : Nat) :
    List TimerEntry × List UpdateSetCall :=
  (pending.filter (fun e => decide (t < e.fireAt)),
   (pending.filter (fun e => decide (e.fireAt ≤ t))).filterMap
     (fun e => fireInlineEdit dom workout e.exerciseId e.setNum))

/-- Event semantics of the debounce: process a time-ordered list of
edit events against the pending-timer map, firing due timers before
each event and all remaining timers at the end; `dom` and `workout`
are the input state and confirmed session at fire time.  Returns the
`updateSet` calls issued, in order. -/
def runEdits (dom : Dom) (workout : Option Workout) :
    List TimerEntry → List EditEvent → List UpdateSetCall
  | pending, [] =>
    pending.filterMap (fun e => fireInlineEdit dom workout e.exerciseId e.setNum)
  | pending, ev :: rest =>
    let fd := fireDue dom workout pending ev.time
    fd.2 ++ runEdits dom workout
      (handleInlineEdit fd.1 ev.exerciseId ev.setNum ev.time) rest

/-! ## Theorems: envelope crypto (C3, C4, C5) -/

/-- C3: Round-trip — for every plaintext payload P and every secret S
(including the falsy no-secret cases, where both sides pass through),
`decrypt (encrypt P S) S` returns exactly P. -/
theorem crypto_round_trip (d : JsVal) (athleteCode : Option String)
    (salt iv : List Nat) (ts : String) :
    decrypt (encrypt (.plain d) athleteCode salt iv ts) athleteCode =
      .ok (.plain d) := by
  by_cases h : jsTruthy athleteCode = true
  · simp only [encrypt, h, if_true, decrypt, CPayload.isFalsy]
    simp [h]
  · have h' : jsTruthy athleteCode = false := by
      cases hx : jsTruthy athleteCode
      · rfl
      · exact absurd hx h
    simp only [encrypt, h', Bool.false_eq_true, if_false]
    unfold decrypt
    cases hf : (CPayload.plain d).isFalsy <;> simp [hf]

/-- C4 (counterexample): the raw secrets `"macra-x"` and `"MACRA-X"`
are distinct, yet a payload sealed under the first decrypts
successfully under the second — `deriveKey` normalizes the secret, so
distinctness of the raw secrets does not imply rejection. -/
theorem wrong_key_counterexample :
    ("macra-x" : String) ≠ "MACRA-X" ∧
    decrypt (encrypt (.plain (.str "payload")) (some "macra-x") [1] [2] "t")
      (some "MACRA-X") = .ok (.plain (.str "payload")) := by
  refine ⟨by decide, ?_⟩
  rfl

/-- C4 (amended): wrong-key rejection holds for the inequality the
code actually tests — whenever both secrets are non-empty and their
normalizations (upper-cased, whitespace-stripped) differ, decryption
of a sealed payload fails with the `DecryptionFailed` error. -/
theorem wrong_key_rejection_normalized (d : CPayload) (s1 s2 : String)
    (h1 : ¬ s1.isEmpty) (h2 : ¬ s2.isEmpty)
    (hne : normalizeCode s1 ≠ normalizeCode s2)
    (salt iv : List Nat) (ts : String) :
    decrypt (encrypt d (some s1) salt iv ts) (some s2) =
      .error "Failed to decrypt data - wrong athlete code?" := by
  have ht1 : jsTruthy (some s1) = true := by simp [jsTruthy, h1]
  have ht2 : jsTruthy (some s2) = true := by simp [jsTruthy, h2]
  simp only [encrypt, ht1, if_true]
  simp only [decrypt, CPayload.isFalsy, ht2, if_true, Option.getD_some]
  have hk : deriveKey s2 salt ≠ deriveKey s1 salt := by
    intro h
    exact hne (congrArg DerivedKey.code h).symm
  simp [deriveKey] at hk ⊢
  intro h
  exact absurd h hk

/-- Witness for `wrong_key_rejection_normalized` at concrete inputs. -/
theorem wrong_key_rejection_normalized_witness :
    decrypt (encrypt (.plain .null) (some "MACRA-A") [3] [4] "ts")
      (some "MACRA-B") =
      .error "Failed to decrypt data - wrong athlete code?" :=
  wrong_key_rejection_normalized (.plain .null) "MACRA-A" "MACRA-B"
    (by decide) (by decide) (by decide) [3] [4] "ts"

/-- C5 (counterexample): with no secret, `decrypt` of a payload
carrying the `_encrypted` marker is not the identity — it throws the
missing-code error. -/
theorem passthrough_counterexample :
    decrypt
      (.enc "2.1" "AES-256-GCM" [1] [2] ⟨"K", [1]⟩ [2] (.plain .null) "t")
      none = .error "Athlete code required for decryption" ∧
    decrypt
      (.enc "2.1" "AES-256-GCM" [1] [2] ⟨"K", [1]⟩ [2] (.plain .null) "t")
      none ≠
      .ok (.enc "2.1" "AES-256-GCM" [1] [2] ⟨"K", [1]⟩ [2] (.plain .null) "t") := by
  refine ⟨rfl, ?_⟩
  intro h
  rw [show decrypt
      (.enc "2.1" "AES-256-GCM" [1] [2] ⟨"K", [1]⟩ [2] (.plain .null) "t")
      none = .error "Athlete code required for decryption" from rfl] at h
  exact Except.noConfusion h

/-- C5 (amended): with a falsy secret (`null`/`undefined` or the empty
string) `encrypt` is the identity on every payload; `decrypt` is the
identity on every payload without the `_encrypted` marker regardless
of the secret; but `decrypt` with no secret of a marker-carrying
payload throws `Athlete code required for decryption` rather than
passing it through. -/
theorem passthrough_behavior :
    (∀ (p : CPayload) (salt iv : List Nat) (ts : String),
        encrypt p none salt iv ts = p ∧ encrypt p (some "") salt iv ts = p) ∧
    (∀ (d : JsVal) (code : Option String),
        decrypt (.plain d) code = .ok (.plain d)) ∧
    (∀ (v a : String) (salt iv : List Nat) (k : DerivedKey)
        (civ : List Nat) (d : CPayload) (ts : String),
        decrypt (.enc v a salt iv k civ d ts) none =
          .error "Athlete code required for decryption") := by
  refine ⟨fun p salt iv ts => ⟨rfl, rfl⟩, fun d code => ?_, fun v a salt iv k civ d ts => rfl⟩
  unfold decrypt
  cases hf : (CPayload.plain d).isFalsy <;> simp [hf]

/-! ## Frame lemmas for the state helpers -/

theorem offlineQueueOn_activeWorkout (st : UnifiedState) (b : Bool)
    (e : String) (m : Option String) (n : Nat) :
    (offlineQueueOn st b e m n).activeWorkout = st.activeWorkout := by
  unfold offlineQueueOn; split <;> rfl

theorem offlineQueueOn_timerInterval (st : UnifiedState) (b : Bool)
    (e : String) (m : Option String) (n : Nat) :
    (offlineQueueOn st b e m n).timerInterval = st.timerInterval := by
  unfold offlineQueueOn; split <;> rfl

theorem offlineQueueOn_prediction (st : UnifiedState) (b : Bool)
    (e : String) (m : Option String) (n : Nat) :
    (offlineQueueOn st b e m n).prediction = st.prediction := by
  unfold offlineQueueOn; split <;> rfl

theorem offlineQueueOn_lastExercise (st : UnifiedState) (b : Bool)
    (e : String) (m : Option String) (n : Nat) :
    (offlineQueueOn st b e m n).lastExercise = st.lastExercise := by
  unfold offlineQueueOn; split <;> rfl

theorem offlineQueueOn_isOnline (st : UnifiedState) (b : Bool)
    (e : String) (m : Option String) (n : Nat) :
    (offlineQueueOn st b e m n).isOnline = st.isOnline := by
  unfold offlineQueueOn; split <;> rfl

theorem stopWorkoutTimer_timerInterval (st : UnifiedState) :
    (stopWorkoutTimer st).timerInterval = none := by
  unfold stopWorkoutTimer
  cases h : st.timerInterval with
  | none => simp [h]
  | some v => simp [h]

theorem renderWorkoutPanel_of_none (st : UnifiedState) (fresh : Nat)
    (h : st.activeWorkout = none) : renderWorkoutPanel st fresh = st := by
  unfold renderWorkoutPanel
  rw [h]

/-! ## Theorems: frame of the no-session case (C10) -/

/-- C10: with no active session, `finalizeWorkout` returns `null`
immediately and leaves the state, the activity log and the timers
untouched with no remote call; `cancelWorkout` likewise returns with
no state change and no remote call. -/
theorem no_session_noop (st : UnifiedState) (acts : Activities) (env : Env)
    (navOnline : Bool) (wn notes : Option String) (fo : FinalizeOutcome)
    (now : Nat) (confirmed : Bool) (co : CancelOutcome)
    (h : st.activeWorkout = none) :
    finalizeWorkout st acts env navOnline wn notes fo =
      ⟨none, st, acts, []⟩ ∧
    cancelWorkout st navOnline now confirmed co = (st, []) := by
  constructor
  · unfold finalizeWorkout
    rw [h]
  · unfold cancelWorkout
    rw [h]

/-- Concrete instance of `no_session_noop`. -/
theorem no_session_noop_witness :
    finalizeWorkout ⟨none, none, none, none, none, true, []⟩ (fun _ => [])
        ⟨0, "2026-02-03", "12:00", 1⟩ true none none .nonOk =
      ⟨none, ⟨none, none, none, none, none, true, []⟩, (fun _ => []), []⟩ ∧
    cancelWorkout ⟨none, none, none, none, none, true, []⟩ true 0 false .resp =
      (⟨none, none, none, none, none, true, []⟩, []) :=
  no_session_noop ⟨none, none, none, none, none, true, []⟩ (fun _ => [])
    ⟨0, "2026-02-03", "12:00", 1⟩ true none none .nonOk 0 false .resp rfl

/-! ## Theorems: no ghost sessions (C2) -/

/-- C2: after `finalizeWorkout` completes on an active session (any
remote outcome), and after `cancelWorkout` completes past its
confirmation guard (any remote outcome), no periodic timer remains
scheduled and `activeWorkout`, `prediction` and `lastExercise` are
all absent. -/
theorem no_ghost_sessions :
    (∀ (st : UnifiedState) (acts : Activities) (env : Env)
        (navOnline : Bool) (wn notes : Option String)
        (fo : FinalizeOutcome) (w : Workout),
        st.activeWorkout = some w →
        (finalizeWorkout st acts env navOnline wn notes fo).state.timerInterval = none ∧
        (finalizeWorkout st acts env navOnline wn notes fo).state.activeWorkout = none ∧
        (finalizeWorkout st acts env navOnline wn notes fo).state.prediction = none ∧
        (finalizeWorkout st acts env navOnline wn notes fo).state.lastExercise = none) ∧
    (∀ (st : UnifiedState) (navOnline : Bool) (now : Nat)
        (confirmed : Bool) (co : CancelOutcome) (w : Workout),
        st.activeWorkout = some w →
        (w.exercises = [] ∨ confirmed = true) →
        (cancelWorkout st navOnline now confirmed co).1.timerInterval = none ∧
        (cancelWorkout st navOnline now confirmed co).1.activeWorkout = none ∧
        (cancelWorkout st navOnline now confirmed co).1.prediction = none ∧
        (cancelWorkout st navOnline now confirmed co).1.lastExercise = none) := by
  constructor
  · intro st acts env navOnline wn notes fo w h
    simp only [finalizeWorkout, h]
    rw [renderWorkoutPanel_of_none]
    · exact ⟨stopWorkoutTimer_timerInterval _, rfl, rfl, rfl⟩
    · rfl
  · intro st navOnline now confirmed co w h hguard
    simp only [cancelWorkout, h]
    have hg : ¬ ((w.exercises.length : Int) > 0 ∧ ¬ confirmed = true) := by
      rcases hguard with h1 | h1
      · intro hc
        rw [h1] at hc
        simp at hc
      · intro hc
        exact hc.2 h1
    rw [if_neg hg]
    exact ⟨stopWorkoutTimer_timerInterval _, rfl, rfl, rfl⟩

/-- Concrete instance of `no_ghost_sessions`: a finalize that timed
out and a confirmed cancel whose notice errored both leave no timer
and no active session. -/
theorem no_ghost_sessions_witness :
    (finalizeWorkout
        ⟨some ⟨"s1", some "Push Day", some 1000, []⟩, none, none, some 7,
         none, true, []⟩
        (fun _ => []) ⟨5000, "2026-02-03", "12:00", 9⟩ true none none
        .timeout).state.timerInterval = none ∧
    (finalizeWorkout
        ⟨some ⟨"s1", some "Push Day", some 1000, []⟩, none, none, some 7,
         none, true, []⟩
        (fun _ => []) ⟨5000, "2026-02-03", "12:00", 9⟩ true none none
        .timeout).state.activeWorkout = none ∧
    (cancelWorkout
        ⟨some ⟨"s1", some "Push Day", some 1000, []⟩, none, none, some 7,
         none, true, []⟩ true 5000 true .fetchError).1.timerInterval = none ∧
    (cancelWorkout
        ⟨some ⟨"s1", some "Push Day", some 1000, []⟩, none, none, some 7,
         none, true, []⟩ true 5000 true .fetchError).1.activeWorkout = none := by
  have h1 := no_ghost_sessions.1
    ⟨some ⟨"s1", some "Push Day", some 1000, []⟩, none, none, some 7,
     none, true, []⟩
    (fun _ => []) ⟨5000, "2026-02-03", "12:00", 9⟩ true none none
    .timeout ⟨"s1", some "Push Day", some 1000, []⟩ rfl
  have h2 := no_ghost_sessions.2
    ⟨some ⟨"s1", some "Push Day", some 1000, []⟩, none, none, some 7,
     none, true, []⟩ true 5000 true .fetchError
    ⟨"s1", some "Push Day", some 1000, []⟩ rfl (Or.inr rfl)
  exact ⟨h1.1, h1.2.1, h2.1, h2.2.1⟩

/-! ## Theorems: finalize writes the Local Activity Record (C1) -/

/-- C1 (counterexample): when the remote finalize call succeeds and
its response carries a summary, the written Local Activity Record
takes the remote (truthy) summary fields, not the pre-call local
snapshot: a session whose local snapshot counts 1 exercise is
recorded with the remote value 5. -/
theorem finalize_summary_counterexample :
    ((finalizeWorkout
        ⟨some ⟨"s1", some "Push", some 0,
          [⟨"e1", "Bench", some "chest", [⟨1, 100, 10, none⟩]⟩]⟩,
         none, none, some 5, none, true, []⟩
        (fun _ => []) ⟨1000, "2026-02-03", "12:00", 9⟩ true none none
        (.ok (some ⟨some ⟨some 5, some 7, some 9000⟩⟩))).activities
      "2026-02-03").head?.map (fun e => e.summary.exercises) = some 5 ∧
    (computeLocalSummary
      ⟨"s1", some "Push", some 0,
        [⟨"e1", "Bench", some "chest", [⟨1, 100, 10, none⟩]⟩]⟩
      (getElapsedTime
        ⟨some ⟨"s1", some "Push", some 0,
          [⟨"e1", "Bench", some "chest", [⟨1, 100, 10, none⟩]⟩]⟩,
         none, none, some 5, none, true, []⟩ 1000)).total_exercises = 1 ∧
    (5 : Int) ≠ 1 := by
  refine ⟨rfl, rfl, by decide⟩

/-- C1 (amended): for every active session and every outcome of the
remote finalize call, `finalizeWorkout` appends exactly one Local
Activity Record for the current date (all other dates untouched),
reports the pre-call local summary in its return value, and
unconditionally clears the active session and its timer.  The
record's summary equals the pre-call local snapshot whenever the
remote call did not return a summary (non-ok rejection, thrown error,
timeout, or success without one); when a successful response carries
a summary, each of the exercises/sets/volume fields takes the remote
value when non-zero, falling back to the local one, while duration
and per-exercise details always come from the local snapshot. -/
theorem finalize_writes_one_record
    (st : UnifiedState) (acts : Activities) (env : Env) (navOnline : Bool)
    (wn notes : Option String) (fo : FinalizeOutcome) (w : Workout)
    (h : st.activeWorkout = some w) :
    (finalizeWorkout st acts env navOnline wn notes fo).state.activeWorkout
      = none ∧
    (finalizeWorkout st acts env navOnline wn notes fo).state.timerInterval
      = none ∧
    (finalizeWorkout st acts env navOnline wn notes fo).ret.map
        (fun r => r.summary)
      = some (computeLocalSummary w (getElapsedTime st env.now)) ∧
    ∃ e : ActivityEntry,
      (finalizeWorkout st acts env navOnline wn notes fo).activities =
        (fun k => if k = env.dateKey then acts k ++ [e] else acts k) ∧
      e.name = jsStrOr wn (jsStrOr w.workout_name "Workout") ∧
      e.exerciseDetails =
        (computeLocalSummary w (getElapsedTime st env.now)).exercises ∧
      e.summary.duration =
        (computeLocalSummary w (getElapsedTime st env.now)).duration ∧
      ((match fo with
        | FinalizeOutcome.ok s => s.bind (fun x => x.summary)
        | _ => none) = none →
        e.summary =
          ⟨(computeLocalSummary w (getElapsedTime st env.now)).total_exercises,
           (computeLocalSummary w (getElapsedTime st env.now)).total_sets,
           (computeLocalSummary w (getElapsedTime st env.now)).total_volume,
           (computeLocalSummary w (getElapsedTime st env.now)).duration⟩) ∧
      (∀ a, (match fo with
        | FinalizeOutcome.ok s => s.bind (fun x => x.summary)
        | _ => none) = some a →
        e.summary.exercises = jsIntOr a.total_exercises
          (computeLocalSummary w (getElapsedTime st env.now)).total_exercises ∧
        e.summary.sets = jsIntOr a.total_sets
          (computeLocalSummary w (getElapsedTime st env.now)).total_sets ∧
        e.summary.volume = jsIntOr a.total_volume
          (computeLocalSummary w (getElapsedTime st env.now)).total_volume) := by
  obtain ⟨aw, tn, pr, ti, le, io, sq⟩ := st
  have h' : aw = some w := h
  subst h'
  cases fo with
  | ok s =>
    refine ⟨rfl, stopWorkoutTimer_timerInterval _, rfl, _, rfl, rfl, rfl,
      rfl, ?_, ?_⟩
    · intro h5
      have h5' : (s.bind fun x => x.summary) = none := h5
      simp only [h5']
    · intro a ha
      have ha' : (s.bind fun x => x.summary) = some a := ha
      simp only [ha']
      exact ⟨trivial, trivial, trivial⟩
  | nonOk =>
    exact ⟨rfl, stopWorkoutTimer_timerInterval _, rfl, _, rfl, rfl, rfl,
      rfl, fun _ => rfl, fun a ha => nomatch ha⟩
  | fetchError =>
    exact ⟨rfl, stopWorkoutTimer_timerInterval _, rfl, _, rfl, rfl, rfl,
      rfl, fun _ => rfl, fun a ha => nomatch ha⟩
  | timeout =>
    exact ⟨rfl, stopWorkoutTimer_timerInterval _, rfl, _, rfl, rfl, rfl,
      rfl, fun _ => rfl, fun a ha => nomatch ha⟩

/-- Concrete instance of `finalize_writes_one_record`: the spec's
example scenario (Bench Press 135×10 and 145×8, finalize "Push Day")
under a timed-out remote call still clears the session and writes one
record with volume 2510. -/
theorem finalize_writes_one_record_witness :
    (finalizeWorkout
        ⟨some ⟨"s9", none, some 0,
          [⟨"e1", "Bench Press", some "chest",
            [⟨1, 135, 10, none⟩, ⟨2, 145, 8, none⟩]⟩]⟩,
         none, none, some 3, none, true, []⟩
        (fun _ => []) ⟨60000, "2026-02-03", "07:00", 4⟩ true
        (some "Push Day") none FinalizeOutcome.timeout).state.activeWorkout
      = none ∧
    ((finalizeWorkout
        ⟨some ⟨"s9", none, some 0,
          [⟨"e1", "Bench Press", some "chest",
            [⟨1, 135, 10, none⟩, ⟨2, 145, 8, none⟩]⟩]⟩,
         none, none, some 3, none, true, []⟩
        (fun _ => []) ⟨60000, "2026-02-03", "07:00", 4⟩ true
        (some "Push Day") none FinalizeOutcome.timeout).activities
      "2026-02-03").map
        (fun e => (e.name, e.summary.exercises, e.summary.sets,
          e.summary.volume)) =
      [("Push Day", 1, 2, 2510)] := by
  have hm := finalize_writes_one_record
    ⟨some ⟨"s9", none, some 0,
      [⟨"e1", "Bench Press", some "chest",
        [⟨1, 135, 10, none⟩, ⟨2, 145, 8, none⟩]⟩]⟩,
     none, none, some 3, none, true, []⟩
    (fun _ => []) ⟨60000, "2026-02-03", "07:00", 4⟩ true
    (some "Push Day") none FinalizeOutcome.timeout
    ⟨"s9", none, some 0,
      [⟨"e1", "Bench Press", some "chest",
        [⟨1, 135, 10, none⟩, ⟨2, 145, 8, none⟩]⟩]⟩ rfl
  exact ⟨hm.1, rfl⟩

/-! ## Theorems: staleness auto-expiry (C9) -/

/-- C9: at initialization, a recovered active session whose age
strictly exceeds four hours is auto-cancelled (best-effort notice
sent, `activeWorkout` cleared) before being exposed, while a session
whose age is at most four hours — e.g. 3h59m — is left active with no
cancel call. -/
theorem stale_autocancel (st : UnifiedState) (navOnline : Bool) (now : Nat)
    (co : CancelOutcome) (w : Workout) (t0 : Nat)
    (h : st.activeWorkout = some w) (h0 : w.started_at = some t0) :
    (((now : Int) - t0 > FOUR_HOURS) →
      (initStaleCheck st navOnline now co).1.activeWorkout = none ∧
      (initStaleCheck st navOnline now co).2 =
        [⟨"/api/v2/workout/cancel", some "POST"⟩]) ∧
    (((now : Int) - t0 ≤ FOUR_HOURS) →
      initStaleCheck st navOnline now co = (st, [])) := by
  obtain ⟨aw, tn, pr, ti, le, io, sq⟩ := st
  have h' : aw = some w := h
  subst h'
  obtain ⟨wid, wname, wstart, wex⟩ := w
  have h0' : wstart = some t0 := h0
  subst h0'
  constructor
  · intro hgt
    simp only [initStaleCheck]
    rw [if_pos hgt]
    exact ⟨rfl, rfl⟩
  · intro hle
    simp only [initStaleCheck]
    rw [if_neg (not_lt.mpr hle)]

/-- Concrete instance of `stale_autocancel`: a session started at
epoch 0 is cancelled when recovered at 4h00m00.001s but kept when
recovered at 3h59m. -/
theorem stale_autocancel_witness :
    (initStaleCheck
        ⟨some ⟨"s1", none, some 0, []⟩, none, none, none, none, true, []⟩
        true 14400001 .resp).1.activeWorkout = none ∧
    initStaleCheck
        ⟨some ⟨"s1", none, some 0, []⟩, none, none, none, none, true, []⟩
        true 14340000 .resp =
      (⟨some ⟨"s1", none, some 0, []⟩, none, none, none, none, true, []⟩, []) := by
  refine ⟨((stale_autocancel _ true 14400001 .resp ⟨"s1", none, some 0, []⟩ 0
      rfl rfl).1 (by decide)).1, ?_⟩
  exact (stale_autocancel _ true 14340000 .resp ⟨"s1", none, some 0, []⟩ 0
    rfl rfl).2 (by decide)

/-! ## Theorems: mutation failure handling (C6) -/

/-- C6 (counterexample): an `addExercise` whose remote call is
rejected returns `null`, but the session state after the call is not
the pre-call state — `lastExercise` was overwritten before the call
and is not rolled back. -/
theorem rollback_counterexample :
    (addExercise
        ⟨some ⟨"s1", none, some 0, []⟩, none, none, some 3, none, true, []⟩
        true 100 9 "Bench" 135 10 1 none .rejected .nonOk .nonOk).ret
      = none ∧
    (addExercise
        ⟨some ⟨"s1", none, some 0, []⟩, none, none, some 3, none, true, []⟩
        true 100 9 "Bench" 135 10 1 none .rejected .nonOk .nonOk).state.lastExercise
      = some ⟨"Bench", 135, 10, 1, none⟩ ∧
    (⟨some ⟨"s1", none, some 0, []⟩, none, none, some 3, none, true,
      []⟩ : UnifiedState).lastExercise = none ∧
    (addExercise
        ⟨some ⟨"s1", none, some 0, []⟩, none, none, some 3, none, true, []⟩
        true 100 9 "Bench" 135 10 1 none .rejected .nonOk .nonOk).state ≠
      ⟨some ⟨"s1", none, some 0, []⟩, none, none, some 3, none, true, []⟩ := by
  refine ⟨rfl, rfl, rfl, ?_⟩
  intro hcontra
  have : (some (⟨"Bench", 135, 10, 1, none⟩ : LastExercise)) =
      (none : Option LastExercise) := congrArg UnifiedState.lastExercise hcontra
  exact Option.noConfusion this

/-- C6 (amended): when a mutating call fails (non-ok response or
thrown fetch error) with an active session, `addExercise` and
`updateSet` return `null`, issue exactly one remote call (no retry),
and leave `activeWorkout`, `prediction`, `timerInterval`,
`todayNutrition` and `isOnline` at their last confirmed values — but
`addExercise` unconditionally overwrites `lastExercise` with the
attempted exercise, and a thrown error while `navigator.onLine` is
false additionally appends the request to the sync queue. -/
theorem mutation_rollback_amended
    (st : UnifiedState) (navOnline : Bool) (now fresh : Nat) (w : Workout)
    (name : String) (weight reps : Int) (sets : Int) (rpe : Option Int)
    (so : StartOutcome) (po : PredOutcome)
    (exerciseId : String) (setNum : Nat) (uw ur : Int) (urpe : Option Int)
    (fo : MutOutcome) (hf : fo = .nonOk ∨ fo = .fetchError)
    (h : st.activeWorkout = some w) :
    ((addExercise st navOnline now fresh name weight reps sets rpe so fo po).ret = none ∧
     (addExercise st navOnline now fresh name weight reps sets rpe so fo po).state.activeWorkout = st.activeWorkout ∧
     (addExercise st navOnline now fresh name weight reps sets rpe so fo po).state.prediction = st.prediction ∧
     (addExercise st navOnline now fresh name weight reps sets rpe so fo po).state.timerInterval = st.timerInterval ∧
     (addExercise st navOnline now fresh name weight reps sets rpe so fo po).state.todayNutrition = st.todayNutrition ∧
     (addExercise st navOnline now fresh name weight reps sets rpe so fo po).state.isOnline = st.isOnline ∧
     (addExercise st navOnline now fresh name weight reps sets rpe so fo po).state.lastExercise = some ⟨name, weight, reps, sets, rpe⟩ ∧
     (addExercise st navOnline now fresh name weight reps sets rpe so fo po).calls = [⟨"/api/v2/workout/exercise", some "POST"⟩] ∧
     (addExercise st navOnline now fresh name weight reps sets rpe so fo po).state.syncQueue =
       (if fo = .fetchError ∧ navOnline = false then
          st.syncQueue ++ [⟨"/api/v2/workout/exercise", some "POST", now⟩]
        else st.syncQueue)) ∧
    ((updateSet st navOnline now fresh exerciseId setNum uw ur urpe fo).ret = none ∧
     (updateSet st navOnline now fresh exerciseId setNum uw ur urpe fo).state.activeWorkout = st.activeWorkout ∧
     (updateSet st navOnline now fresh exerciseId setNum uw ur urpe fo).state.prediction = st.prediction ∧
     (updateSet st navOnline now fresh exerciseId setNum uw ur urpe fo).state.timerInterval = st.timerInterval ∧
     (updateSet st navOnline now fresh exerciseId setNum uw ur urpe fo).state.todayNutrition = st.todayNutrition ∧
     (updateSet st navOnline now fresh exerciseId setNum uw ur urpe fo).state.isOnline = st.isOnline ∧
     (updateSet st navOnline now fresh exerciseId setNum uw ur urpe fo).state.lastExercise = st.lastExercise ∧
     (updateSet st navOnline now fresh exerciseId setNum uw ur urpe fo).calls = [⟨"/api/v2/workout/set", some "PUT"⟩] ∧
     (updateSet st navOnline now fresh exerciseId setNum uw ur urpe fo).state.syncQueue =
       (if fo = .fetchError ∧ navOnline = false then
          st.syncQueue ++ [⟨"/api/v2/workout/set", some "PUT", now⟩]
        else st.syncQueue)) := by
  obtain ⟨aw, tn, pr, ti, le, io, sq⟩ := st
  have h' : aw = some w := h
  subst h'
  rcases hf with hf | hf <;> subst hf <;> cases navOnline <;>
    refine ⟨⟨rfl, rfl, rfl, rfl, rfl, rfl, rfl, rfl, ?_⟩,
            ⟨rfl, rfl, rfl, rfl, rfl, rfl, rfl, rfl, ?_⟩⟩ <;>
    simp [addExercise, updateSet, offlineQueueOn]

/-- Concrete instance of `mutation_rollback_amended`. -/
theorem mutation_rollback_amended_witness :
    (addExercise
        ⟨some ⟨"s1", none, some 0, []⟩, none, none, none, none, true, []⟩
        true 50 2 "Row" 95 8 1 none .rejected .nonOk .nonOk).ret = none ∧
    (updateSet
        ⟨some ⟨"s1", none, some 0, []⟩, none, none, none, none, true, []⟩
        true 50 2 "e1" 1 100 5 none .nonOk).state.activeWorkout =
      (⟨some ⟨"s1", none, some 0, []⟩, none, none, none, none, true,
        []⟩ : UnifiedState).activeWorkout := by
  have hm := mutation_rollback_amended
    ⟨some ⟨"s1", none, some 0, []⟩, none, none, none, none, true, []⟩
    true 50 2 ⟨"s1", none, some 0, []⟩ "Row" 95 8 1 none .rejected .nonOk
    "e1" 1 100 5 none .nonOk (Or.inl rfl) rfl
  exact ⟨hm.1.1, hm.2.2.1⟩

/-! ## Theorems: offline queue behaviour (C7) -/

/-- C7 (counterexample): a read of `/api/v2/workout/active` (issued,
as in the source, with the default absent method) that throws while
offline IS appended to the sync queue — the guard compares
`options.method` against the literal `'GET'`, which the default
method is not — and restoring connectivity does not drain the queue:
the `'online'` handler leaves `syncQueue` untouched and re-issues
nothing. -/
theorem offline_queue_counterexample :
    (unifiedApiCall ⟨none, none, none, none, none, false, []⟩
        "/api/v2/workout/active" none true false 42 .err).2.syncQueue =
      [⟨"/api/v2/workout/active", none, 42⟩] ∧
    handleOnlineEvent
        (unifiedApiCall ⟨none, none, none, none, none, false, []⟩
          "/api/v2/workout/active" none true false 42 .err).2 =
      ⟨none, none, none, none, none, true,
        [⟨"/api/v2/workout/active", none, 42⟩]⟩ ∧
    (handleOnlineEvent
        (unifiedApiCall ⟨none, none, none, none, none, false, []⟩
          "/api/v2/workout/active" none true false 42 .err).2).syncQueue =
      [⟨"/api/v2/workout/active", none, 42⟩] := by
  refine ⟨?_, ?_, ?_⟩ <;>
    simp [unifiedApiCall, offlineQueueOn, handleOnlineEvent]

/-- C7 (amended): a call that throws (network error or abort) while
`navigator.onLine` is false and whose `options.method` is not the
literal `'GET'` — which includes reads issued with the default absent
method — appends `(endpoint, options, timestamp)` at the tail of the
sync queue (FIFO); calls with an explicit `'GET'` method, calls made
while online, delivered responses, and the tokenless early return
never queue; and the `'online'` handler only sets the connectivity
flag — the queue is never drained and no request is re-issued
(draining is an unimplemented TODO in the source). -/
theorem offline_queue_amended (st : UnifiedState) (endpoint : String)
    (method : Option String) (navOnline : Bool) (now : Nat)
    (outcome : FetchResult) (hasToken : Bool) :
    (hasToken = true → (outcome = .err ∨ outcome = .abort) →
      navOnline = false → method ≠ some "GET" →
      (unifiedApiCall st endpoint method hasToken navOnline now outcome).2.syncQueue =
        st.syncQueue ++ [⟨endpoint, method, now⟩] ∧
      (unifiedApiCall st endpoint method hasToken navOnline now outcome).1 =
        .thrown) ∧
    ((method = some "GET" ∨ navOnline = true ∨ (∃ ok, outcome = .resp ok) ∨
        hasToken = false) →
      (unifiedApiCall st endpoint method hasToken navOnline now outcome).2 = st) ∧
    handleOnlineEvent st = { st with isOnline := true } := by
  refine ⟨?_, ?_, rfl⟩
  · intro ht ho hn hm
    subst ht
    subst hn
    rcases ho with rfl | rfl <;>
      constructor <;>
      simp [unifiedApiCall, offlineQueueOn, hm]
  · intro hdisj
    rcases hdisj with hm | hn | ⟨ok, rfl⟩ | hf
    · subst hm
      cases hasToken <;> cases outcome <;>
        simp [unifiedApiCall, offlineQueueOn]
    · subst hn
      cases hasToken <;> cases outcome <;>
        simp [unifiedApiCall, offlineQueueOn]
    · cases hasToken <;> simp [unifiedApiCall]
    · subst hf
      simp [unifiedApiCall]

/-- Concrete instance of `offline_queue_amended`: an offline POST
failure is appended after an existing queue entry (FIFO), an explicit
GET is not queued, and the `'online'` handler only flips the flag. -/
theorem offline_queue_amended_witness :
    (unifiedApiCall
        ⟨none, none, none, none, none, false, [⟨"/a", some "POST", 1⟩]⟩
        "/api/v2/workout/exercise" (some "POST") true false 7 .err).2.syncQueue =
      [⟨"/a", some "POST", 1⟩, ⟨"/api/v2/workout/exercise", some "POST", 7⟩] ∧
    (unifiedApiCall
        ⟨none, none, none, none, none, false, [⟨"/a", some "POST", 1⟩]⟩
        "/api/v2/workout/active" (some "GET") true false 7 .err).2 =
      ⟨none, none, none, none, none, false, [⟨"/a", some "POST", 1⟩]⟩ ∧
    handleOnlineEvent
        ⟨none, none, none, none, none, false, [⟨"/a", some "POST", 1⟩]⟩ =
      ⟨none, none, none, none, none, true, [⟨"/a", some "POST", 1⟩]⟩ := by
  refine ⟨((offline_queue_amended
      ⟨none, none, none, none, none, false, [⟨"/a", some "POST", 1⟩]⟩
      "/api/v2/workout/exercise" (some "POST") false 7 .err true).1
      rfl (Or.inl rfl) rfl (by simp)).1, ?_, ?_⟩
  · exact (offline_queue_amended
      ⟨none, none, none, none, none, false, [⟨"/a", some "POST", 1⟩]⟩
      "/api/v2/workout/active" (some "GET") false 7 .err true).2.1
      (Or.inl rfl)
  · exact (offline_queue_amended
      ⟨none, none, none, none, none, false, [⟨"/a", some "POST", 1⟩]⟩
      "/x" none false 0 .err true).2.2

/-! ## Theorems: debounce coalescing (C8) -/

/-- The edits of a burst all land inside the 800 ms quiet period:
each event arrives no earlier than the previous one and strictly
before the previous event's timer fires. -/
def withinQuiet : Nat → List EditEvent → Bool
  | _, [] => true
  | tprev, ev :: rest =>
    decide (tprev ≤ ev.time) && decide (ev.time < tprev + 800) &&
      withinQuiet ev.time rest

/-- With a single pending timer for the burst's key and every further
edit arriving inside the quiet period, the run collapses to the one
final timer firing. -/
theorem runEdits_single_pending (dom : Dom) (wk : Option Workout)
    (ex : String) (sn : Nat) (events : List EditEvent) :
    ∀ tprev : Nat,
    (∀ e ∈ events, e.exerciseId = ex ∧ e.setNum = sn) →
    withinQuiet tprev events = true →
    runEdits dom wk [⟨editKey ex sn, tprev + 800, ex, sn⟩] events =
      (fireInlineEdit dom wk ex sn).toList := by
  induction events with
  | nil =>
    intro tprev _ _
    cases hf : fireInlineEdit dom wk ex sn <;> simp [runEdits, hf]
  | cons ev rest ih =>
    intro tprev hkeys hw
    obtain ⟨hk1, hk2⟩ := hkeys ev (List.mem_cons_self _ _)
    have hw' := hw
    unfold withinQuiet at hw'
    rw [Bool.and_eq_true, Bool.and_eq_true] at hw'
    obtain ⟨⟨hle, hlt⟩, hwrest⟩ := hw'
    rw [decide_eq_true_eq] at hle hlt
    have hnle : ¬ (tprev + 800 ≤ ev.time) := Nat.not_le.mpr hlt
    have hfd1 : (fireDue dom wk [⟨editKey ex sn, tprev + 800, ex, sn⟩]
        ev.time).1 = [⟨editKey ex sn, tprev + 800, ex, sn⟩] := by
      simp [fireDue, hlt]
    have hfd2 : (fireDue dom wk [⟨editKey ex sn, tprev + 800, ex, sn⟩]
        ev.time).2 = [] := by
      simp [fireDue, hnle]
    have hhe : handleInlineEdit [⟨editKey ex sn, tprev + 800, ex, sn⟩]
        ev.exerciseId ev.setNum ev.time =
        [⟨editKey ex sn, ev.time + 800, ex, sn⟩] := by
      simp [handleInlineEdit, hk1, hk2]
    have hstep : runEdits dom wk [⟨editKey ex sn, tprev + 800, ex, sn⟩]
        (ev :: rest) =
        (fireDue dom wk [⟨editKey ex sn, tprev + 800, ex, sn⟩] ev.time).2 ++
          runEdits dom wk
            (handleInlineEdit
              (fireDue dom wk [⟨editKey ex sn, tprev + 800, ex, sn⟩]
                ev.time).1 ev.exerciseId ev.setNum ev.time) rest := rfl
    rw [hstep, hfd2, hfd1, hhe, List.nil_append]
    exact ih ev.time (fun e he => hkeys e (List.mem_cons_of_mem _ he)) hwrest

/-- C8: a burst of N ≥ 1 inline edits to the same (exerciseId,
setNum), each arriving within the 800 ms quiet period of its
predecessor, produces exactly the calls of one timer firing: one
`updateSet` call carrying the final resolved DOM values when they
differ from the confirmed set, and no call at all when they equal the
confirmed values; and scheduling an edit for one key never touches
the pending timer of any other key. -/
theorem debounce_coalescing :
    (∀ (dom : Dom) (wk : Option Workout) (ex : String) (sn : Nat)
        (first : EditEvent) (rest : List EditEvent),
        first.exerciseId = ex → first.setNum = sn →
        (∀ e ∈ rest, e.exerciseId = ex ∧ e.setNum = sn) →
        withinQuiet first.time rest = true →
        runEdits dom wk [] (first :: rest) =
          (fireInlineEdit dom wk ex sn).toList) ∧
    (∀ (dom : Dom) (wk : Option Workout) (ex : String) (sn : Nat)
        (nw nr : Int) (s : SetRec),
        dom.weightVal (editKey ex sn) = some nw →
        dom.repsVal (editKey ex sn) = some nr →
        ((wk.bind (fun k => k.exercises.find? (fun e => e.id == ex))).bind
          (fun e => e.sets.find? (fun x => x.set_num == sn))) = some s →
        ((s.weight ≠ nw ∨ s.reps ≠ nr) →
          fireInlineEdit dom wk ex sn = some ⟨ex, sn, nw, nr, s.rpe⟩) ∧
        (s.weight = nw ∧ s.reps = nr →
          fireInlineEdit dom wk ex sn = none)) ∧
    (∀ (pending : List TimerEntry) (ex : String) (sn : Nat) (now : Nat)
        (k : String), k ≠ editKey ex sn →
        (handleInlineEdit pending ex sn now).filter (fun e => e.key == k) =
          pending.filter (fun e => e.key == k)) := by
  refine ⟨?_, ?_, ?_⟩
  · intro dom wk ex sn first rest hk1 hk2 hkeys hw
    have hstep : runEdits dom wk [] (first :: rest) =
        (fireDue dom wk [] first.time).2 ++
          runEdits dom wk
            (handleInlineEdit (fireDue dom wk [] first.time).1
              first.exerciseId first.setNum first.time) rest := rfl
    have hfd : fireDue dom wk [] first.time = ([], []) := rfl
    have hhe : handleInlineEdit [] first.exerciseId first.setNum first.time =
        [⟨editKey ex sn, first.time + 800, ex, sn⟩] := by
      simp [handleInlineEdit, hk1, hk2]
    rw [hstep, hfd]
    simp only [List.nil_append]
    rw [hhe]
    exact runEdits_single_pending dom wk ex sn rest first.time hkeys hw
  · intro dom wk ex sn nw nr s hwv hrv hs
    constructor
    · intro hne
      simp only [fireInlineEdit, hwv, hrv, hs]
      rw [if_pos hne]
    · rintro ⟨he1, he2⟩
      simp only [fireInlineEdit, hwv, hrv, hs]
      rw [if_neg]
      push_neg
      exact ⟨he1, he2⟩
  · intro pending ex sn now k hk
    simp only [handleInlineEdit]
    rw [List.filter_append]
    have hne : (editKey ex sn == k) = false :=
      beq_eq_false_iff_ne.mpr (Ne.symm hk)
    have hlast : List.filter (fun e : TimerEntry => e.key == k)
        [(⟨editKey ex sn, now + 800, ex, sn⟩ : TimerEntry)] = [] := by
      simp [List.filter, hne]
    rw [hlast, List.append_nil, List.filter_filter]
    refine List.filter_congr ?_
    intro e _
    cases he : (e.key == k) with
    | false => simp
    | true =>
      have hek : e.key = k := beq_iff_eq.mp he
      have : (e.key != editKey ex sn) = true := by
        rw [bne_iff_ne, hek]
        exact hk
      simp [this]

/-- Concrete instance of `debounce_coalescing`: three edits to set
(e1, 1) at t = 0, 300, 700 ms with the inputs resolving to 200×8
against a confirmed 180×8 produce exactly one `updateSet` call with
the final values. -/
theorem debounce_coalescing_witness :
    runEdits
      ⟨fun k => if k = "e1-1" then some 200 else none,
       fun k => if k = "e1-1" then some 8 else none⟩
      (some ⟨"s1", none, none,
        [⟨"e1", "Bench", none, [⟨1, 180, 8, none⟩]⟩]⟩)
      [] [⟨"e1", 1, 0⟩, ⟨"e1", 1, 300⟩, ⟨"e1", 1, 700⟩] =
      [⟨"e1", 1, 200, 8, none⟩] := by
  have h := debounce_coalescing.1
    ⟨fun k => if k = "e1-1" then some 200 else none,
     fun k => if k = "e1-1" then some 8 else none⟩
    (some ⟨"s1", none, none,
      [⟨"e1", "Bench", none, [⟨1, 180, 8, none⟩]⟩]⟩)
    "e1" 1 ⟨"e1", 1, 0⟩ [⟨"e1", 1, 300⟩, ⟨"e1", 1, 700⟩]
    rfl rfl (by decide) (by decide)
  rw [h]
  rfl
